import Mathlib

/-!
Verification development for the CountCam repository (upload-and-persist
pipeline: metadata parser, model client, upload endpoint revisions, batch
upload controller, hourly CSV export).

Shallow embedding conventions:
* JavaScript numbers are modelled by `Rat` (a `nan` case is carried
  separately in the JSON value type `JVal`); machine floating point
  formatting is abstracted by a total renderer whose only claim-relevant
  property (its output alphabet) matches the JavaScript one.
* A JS `Date` produced by a successful `date-fns` parse or carried by a
  history record is modelled by its calendar fields (`DateTimeYMDHM`).
* `FormData` fields are `Option String`; JS falsiness of the empty string
  is applied where the source tests truthiness.
* A file body is represented by its base64 encoding (`base64Content`),
  matching how every endpoint revision consumes it.
* Firestore is modelled by a `StoreResult` oracle plus the list of records
  actually persisted by the request.
-/

/-- Decimal digit characters of a natural number, fuel-bounded structural
recursion mirroring the decimal expansion used by JS `String(n)`. -/
def natDigitsAux : Nat → Nat → List Char
  | 0, _ => []
  | fuel + 1, n =>
    if n < 10 then [Nat.digitChar n]
    else natDigitsAux fuel (n / 10) ++ [Nat.digitChar (n % 10)]

/-- Decimal rendering of a natural number (JS `String(n)` for naturals). -/
def renderNat (n : Nat) : String :=
  String.mk (natDigitsAux (n + 1) n)

/-- Decimal rendering of an integer (JS `String(n)` for integers). -/
def renderInt (i : Int) : String :=
  if i < 0 then "-" ++ renderNat i.natAbs else renderNat i.toNat

/-- Abstract stand-in for JS number formatting on a rational value: for
integral values it coincides with `String(n)`; for non-integral values only
the output alphabet (digits, sign, dot) is modelled. -/
def renderNumber (q : Rat) : String :=
  if q.den = 1 then renderInt q.num
  else renderInt q.num ++ "." ++ renderNat q.den

/-- Two-digit zero padding, as in `String(hour).padStart(2, "0")` and the
`MM`, `dd`, `HH`, `mm` tokens of `date-fns format`. -/
def pad2 (n : Nat) : String :=
  if n < 10 then "0" ++ renderNat n else renderNat n

/-- Four-digit zero padding (`yyyy` token of `date-fns format`). -/
def pad4 (n : Nat) : String :=
  if n < 10 then "000" ++ renderNat n
  else if n < 100 then "00" ++ renderNat n
  else if n < 1000 then "0" ++ renderNat n
  else renderNat n

/-- Model of `Array.prototype.join(sep)` on a list of strings. -/
def joinWith (sep : String) : List String → String
  | [] => ""
  | [a] => a
  | a :: b :: rest => a ++ sep ++ joinWith sep (b :: rest)

/-- Calendar fields of a valid JS `Date` as used by this application:
year, month (1-12), day, hour, minute. -/
structure DateTimeYMDHM where
  year : Nat
  month : Nat
  day : Nat
  hour : Nat
  minute : Nat
deriving DecidableEq

/-- Leap-year test of the Gregorian calendar. -/
def isLeapYear (y : Nat) : Bool :=
  y % 4 = 0 && (y % 100 ≠ 0 || y % 400 = 0)

/-- Number of days in a month, used by `date-fns` calendar validation. -/
def daysInMonth (y m : Nat) : Nat :=
  if m = 1 then 31
  else if m = 2 then (if isLeapYear y then 29 else 28)
  else if m = 3 then 31
  else if m = 4 then 30
  else if m = 5 then 31
  else if m = 6 then 30
  else if m = 7 then 31
  else if m = 8 then 31
  else if m = 9 then 30
  else if m = 10 then 31
  else if m = 11 then 30
  else if m = 12 then 31
  else 0

/-- Numeric value of a decimal digit character. -/
def digitVal (c : Char) : Nat := c.toNat - 48

/-- Positional parse of `yyyy-MM-dd HH:mm` over a character list, with the
calendar validation performed by `date-fns parse` / `isValid` (out-of-range
month, day, hour or minute yields an invalid date, i.e. `none`). -/
def parseYMDHMChars (cs : List Char) : Option DateTimeYMDHM :=
  if cs.length == 16 &&
     (cs.getD 0 ' ').isDigit && (cs.getD 1 ' ').isDigit &&
     (cs.getD 2 ' ').isDigit && (cs.getD 3 ' ').isDigit &&
     (cs.getD 4 ' ') == '-' &&
     (cs.getD 5 ' ').isDigit && (cs.getD 6 ' ').isDigit &&
     (cs.getD 7 ' ') == '-' &&
     (cs.getD 8 ' ').isDigit && (cs.getD 9 ' ').isDigit &&
     (cs.getD 10 ' ') == ' ' &&
     (cs.getD 11 ' ').isDigit && (cs.getD 12 ' ').isDigit &&
     (cs.getD 13 ' ') == ':' &&
     (cs.getD 14 ' ').isDigit && (cs.getD 15 ' ').isDigit then
    let y := digitVal (cs.getD 0 ' ') * 1000 + digitVal (cs.getD 1 ' ') * 100 +
             digitVal (cs.getD 2 ' ') * 10 + digitVal (cs.getD 3 ' ')
    let mo := digitVal (cs.getD 5 ' ') * 10 + digitVal (cs.getD 6 ' ')
    let d := digitVal (cs.getD 8 ' ') * 10 + digitVal (cs.getD 9 ' ')
    let h := digitVal (cs.getD 11 ' ') * 10 + digitVal (cs.getD 12 ' ')
    let mi := digitVal (cs.getD 14 ' ') * 10 + digitVal (cs.getD 15 ' ')
    if 1 ≤ mo && mo ≤ 12 && 1 ≤ d && d ≤ daysInMonth y mo && h ≤ 23 && mi ≤ 59 then
      some ⟨y, mo, d, h, mi⟩
    else none
  else none

/-- Model of `date-fns parse(s, "yyyy-MM-dd HH:mm", ...)` followed by `isValid`. -/
def parseYMDHM (s : String) : Option DateTimeYMDHM :=
  parseYMDHMChars s.data

/-- Positional parse of `yyyy-MM-dd HH:mm:ss` over a character list, with
calendar validation (the page parser variant that keeps seconds). -/
def parseYMDHMSChars (cs : List Char) : Option DateTimeYMDHM :=
  if cs.length == 19 &&
     (cs.getD 0 ' ').isDigit && (cs.getD 1 ' ').isDigit &&
     (cs.getD 2 ' ').isDigit && (cs.getD 3 ' ').isDigit &&
     (cs.getD 4 ' ') == '-' &&
     (cs.getD 5 ' ').isDigit && (cs.getD 6 ' ').isDigit &&
     (cs.getD 7 ' ') == '-' &&
     (cs.getD 8 ' ').isDigit && (cs.getD 9 ' ').isDigit &&
     (cs.getD 10 ' ') == ' ' &&
     (cs.getD 11 ' ').isDigit && (cs.getD 12 ' ').isDigit &&
     (cs.getD 13 ' ') == ':' &&
     (cs.getD 14 ' ').isDigit && (cs.getD 15 ' ').isDigit &&
     (cs.getD 16 ' ') == ':' &&
     (cs.getD 17 ' ').isDigit && (cs.getD 18 ' ').isDigit then
    let y := digitVal (cs.getD 0 ' ') * 1000 + digitVal (cs.getD 1 ' ') * 100 +
             digitVal (cs.getD 2 ' ') * 10 + digitVal (cs.getD 3 ' ')
    let mo := digitVal (cs.getD 5 ' ') * 10 + digitVal (cs.getD 6 ' ')
    let d := digitVal (cs.getD 8 ' ') * 10 + digitVal (cs.getD 9 ' ')
    let h := digitVal (cs.getD 11 ' ') * 10 + digitVal (cs.getD 12 ' ')
    let mi := digitVal (cs.getD 14 ' ') * 10 + digitVal (cs.getD 15 ' ')
    let ss := digitVal (cs.getD 17 ' ') * 10 + digitVal (cs.getD 18 ' ')
    if 1 ≤ mo && mo ≤ 12 && 1 ≤ d && d ≤ daysInMonth y mo && h ≤ 23 && mi ≤ 59 && ss ≤ 59 then
      some ⟨y, mo, d, h, mi⟩
    else none
  else none

/-- Model of `date-fns parse(s, "yyyy-MM-dd HH:mm:ss", ...)` followed by `isValid`;
seconds are validated and then dropped by the `HH:mm` re-formatting. -/
def parseYMDHMS (s : String) : Option DateTimeYMDHM :=
  parseYMDHMSChars s.data

/-- Model of `date-fns format(d, "yyyy-MM-dd")`. -/
def formatYMD (dt : DateTimeYMDHM) : String :=
  pad4 dt.year ++ "-" ++ pad2 dt.month ++ "-" ++ pad2 dt.day

/-- Model of `date-fns format(d, "HH:mm")`. -/
def formatHM (dt : DateTimeYMDHM) : String :=
  pad2 dt.hour ++ ":" ++ pad2 dt.minute

/-- Model of `String.prototype.startsWith`, via structural list prefix test. -/
def jsStartsWith (s pre : String) : Bool :=
  pre.data.isPrefixOf s.data

/-- Characters after the first occurrence of `sep`, up to the next
occurrence (the `[1]` component of a JS `split`). -/
def takeUntilSub (sep : List Char) : List Char → List Char
  | [] => []
  | c :: t => if sep.isPrefixOf (c :: t) then [] else c :: takeUntilSub sep t

/-- Find the first occurrence of `sep` and return what follows it. -/
def afterFirstSub (sep : List Char) : List Char → Option (List Char)
  | [] => none
  | c :: t =>
    if sep.isPrefixOf (c :: t) then some ((c :: t).drop sep.length)
    else afterFirstSub sep t

/-- Model of `String.prototype.includes`. -/
def strIncludes (s sub : String) : Bool :=
  (afterFirstSub sub.data s.data).isSome

/-- JSON values as they may appear in a model output field
(`z.number()` distinguishes `NaN` from ordinary numbers). -/
inductive JVal where
  | num (q : Rat)
  | nan
  | str (s : String)
  | boolean (b : Bool)
  | null
deriving DecidableEq

/-- The enum `DirectionEnum = z.enum(["entering", "exiting"])` from `src/ai/types.ts`
(the current revision; an earlier revision also admitted "both"), as its
`safeParse` on a string. -/
def DirectionEnum_safeParse (s : String) : Option String :=
  if s = "entering" || s = "exiting" then some s else none

/-- Raw structured output of the model before schema validation:
`{visitorCount, countedDirection}` with arbitrary JSON field values. -/
structure RawOutput where
  visitorCount : JVal
  countedDirection : JVal
deriving DecidableEq

/-- Schema-validated model output (`CountVisitorsOutputSchema`):
`visitorCount: z.number()` and `countedDirection: DirectionEnum`. -/
structure CountVisitorsOutput where
  visitorCount : Rat
  countedDirection : String
deriving DecidableEq

/-- Parse of `z.number().safeParse`: accepts any number and rejects `NaN` and
non-numeric values. Note the schema has no `.int()` or `.nonnegative()`. -/
def zNumber : JVal → Option Rat
  | .num q => some q
  | _ => none

/-- Parse of `DirectionEnum.safeParse` applied to a JSON value. -/
def zDirection : JVal → Option String
  | .str s => DirectionEnum_safeParse s
  | _ => none

/-- Parse of `CountVisitorsOutputSchema.safeParse` from
`src/ai/flows/count-visitors.ts` lines 27-31. -/
def CountVisitorsOutputSchema_safeParse (r : RawOutput) : Option CountVisitorsOutput :=
  match zNumber r.visitorCount, zDirection r.countedDirection with
  | some q, some d => some ⟨q, d⟩
  | _, _ => none

/-- One response candidate of the generative model, with the fields the
flow inspects when no structured output is available. -/
structure Candidate where
  finishReason : String
  messageContent : Option String
  safetyRatings : List String
deriving DecidableEq

/-- The model response visible to `countVisitorsFlow`: the structured
`output` (if any) and the candidate list. -/
structure ModelResponse where
  output : Option RawOutput
  candidates : List Candidate
deriving DecidableEq

/-- Model of `JSON.stringify(safetyRatings)`, abstracted to a bracketed join. -/
def serializeSafetyRatings (rs : List String) : String :=
  "[" ++ joinWith "," rs ++ "]"

/-- Diagnostic message built by `countVisitorsFlow` when the model returned
no usable structured output (blocked or malformed response): base text plus
finish reason, message content and safety ratings of the first candidate. -/
def noOutputErrorMessage (cands : List Candidate) : String :=
  let base := "LLM did not return valid structured output or was blocked."
  match cands.head? with
  | none => base
  | some c =>
    let m1 := base ++ " Finish reason: " ++ c.finishReason ++ "."
    let m2 :=
      match c.messageContent with
      | some mc => if mc.length > 0 then m1 ++ " Message content: " ++ mc ++ "." else m1
      | none => m1
    if c.safetyRatings.isEmpty then m2
    else m2 ++ " Safety Ratings: " ++ serializeSafetyRatings c.safetyRatings ++ "."

/-- Abstract rendering of a JSON value (used only inside diagnostics). -/
def renderJVal : JVal → String
  | .num q => renderNumber q
  | .nan => "NaN"
  | .str s => s
  | .boolean b => if b then "true" else "false"
  | .null => "null"

/-- Diagnostic message for a schema validation failure
(`LLM output validation error: ... Received: ...`). -/
def validationErrorMessage (r : RawOutput) : String :=
  "LLM output validation error. Received: " ++ renderJVal r.visitorCount ++
    " " ++ renderJVal r.countedDirection

/-- Input of the model client: data URI and requested direction. -/
structure CountVisitorsInput where
  videoDataUri : String
  direction : String
deriving DecidableEq

/-- The flow `countVisitorsFlow` from `src/ai/flows/count-visitors.ts` lines 90-129:
fails when there is no structured output or the output fails the schema;
a `countedDirection` differing from the request is only `console.warn`-ed
and the parsed output is returned unchanged. -/
def countVisitorsFlow (input : CountVisitorsInput) (resp : ModelResponse) :
    Except String CountVisitorsOutput :=
  match resp.output with
  | none => .error (noOutputErrorMessage resp.candidates)
  | some raw =>
    match CountVisitorsOutputSchema_safeParse raw with
    | none => .error (validationErrorMessage raw)
    | some parsed => .ok parsed

/-- An uploaded file as the endpoints consume it: name, reported MIME type,
byte size, and its base64-encoded content. -/
structure UploadedFile where
  name : String
  mimeType : String
  size : Nat
  base64Content : String
deriving DecidableEq

/-- The multipart form fields read by the upload endpoints. `fieldKeys`
lists the raw form field names (for the `;type=` curl workaround). -/
structure FormDataFields where
  videoFile : Option UploadedFile
  direction : Option String
  recordingDate : Option String
  recordingTime : Option String
  uploadSource : Option String
  locationName : Option String
  fieldKeys : List String
deriving DecidableEq

/-- JS truthiness on an optional string: the empty string is falsy. -/
def normalizeOptStr : Option String → Option String
  | some s => if s = "" then none else some s
  | none => none

/-- The curl workaround: find a form key `videoFile...;type=T` and extract
`T` (`key.split(";type=")[1]`). -/
def extractCurlType (keys : List String) : Option String :=
  match keys.find? (fun k => jsStartsWith k "videoFile" && strIncludes k ";type=") with
  | some k =>
    some (String.mk (takeUntilSub ";type=".data ((afterFirstSub ";type=".data k.data).getD [])))
  | none => none

/-- Effective MIME type used by the validating revisions: the curl-supplied
`;type=` value when it starts with `video/`, otherwise the file type. -/
def effectiveMime (f : FormDataFields) (file : UploadedFile) : String :=
  match extractCurlType f.fieldKeys with
  | some t => if jsStartsWith t "video/" then t else file.mimeType
  | none => file.mimeType

/-- Outcome of one Firestore `addDoc` / `add` call. -/
inductive StoreResult where
  | ok (id : String)
  | failed (msg : String)
deriving DecidableEq

/-- A record as written to the `visitor_logs` collection. -/
structure SavedRecord where
  visitorCount : Rat
  countedDirection : String
  videoFileName : String
  recordingStartDateTime : Option DateTimeYMDHM
  processingTimestamp : Nat
  uploadSource : String
  locationName : String
deriving DecidableEq

/-- The cap `MAX_FILE_SIZE_BYTES = 50 * 1024 * 1024`. -/
def MAX_FILE_SIZE_BYTES : Nat := 50 * 1024 * 1024

/-- JSON request body fields for the API JSON path (absent field = `none`). -/
structure JsonBody where
  videoDataUri : Option JVal
  direction : Option JVal
  recordingDate : Option JVal
  recordingTime : Option JVal
  uploadSource : Option JVal
  locationName : Option JVal
deriving DecidableEq

/-- The regex `^\d\x7b4\x7d-\d\x7b2\x7d-\d\x7b2\x7d$` used for
`recordingDate` (YYYY-MM-DD shape check, no calendar validation). -/
def matchesDateRegex (s : String) : Bool :=
  let cs := s.data
  cs.length == 10 &&
  (cs.getD 0 ' ').isDigit && (cs.getD 1 ' ').isDigit &&
  (cs.getD 2 ' ').isDigit && (cs.getD 3 ' ').isDigit &&
  (cs.getD 4 ' ') == '-' &&
  (cs.getD 5 ' ').isDigit && (cs.getD 6 ' ').isDigit &&
  (cs.getD 7 ' ') == '-' &&
  (cs.getD 8 ' ').isDigit && (cs.getD 9 ' ').isDigit

/-- The regex `^\d\x7b2\x7d:\d\x7b2\x7d$` used for `recordingTime`
(HH:MM shape check). -/
def matchesTimeRegex (s : String) : Bool :=
  let cs := s.data
  cs.length == 5 &&
  (cs.getD 0 ' ').isDigit && (cs.getD 1 ' ').isDigit &&
  (cs.getD 2 ' ') == ':' &&
  (cs.getD 3 ' ').isDigit && (cs.getD 4 ' ').isDigit

/-- The `videoDataUri` refinement of the JSON input schema:
starts with `data:video/` and contains `;base64,`. -/
def validVideoDataUri (s : String) : Bool :=
  jsStartsWith s "data:video/" && strIncludes s ";base64,"

/-- Validated JSON body of the part_009 revision after `safeParse`. -/
structure ParsedJson009 where
  videoDataUri : String
  direction : String
  recordingDate : Option String
  recordingTime : Option String
  uploadSource : String
  locationName : String
deriving DecidableEq

/-- Parse of `ApiJsonInputSchema.safeParse` of the part_009 revision: data URI
refinement, direction enum, optional regex-checked date and time, optional
`ui`/`api` source defaulting to `api`, optional location defaulting to
`N/A`. -/
def ApiJsonInputSchema009_safeParse (b : JsonBody) : Option ParsedJson009 :=
  match b.videoDataUri with
  | some (.str uri) =>
    if validVideoDataUri uri then
      match b.direction with
      | some (.str d) =>
        match DirectionEnum_safeParse d with
        | some dir =>
          let dateOk := match b.recordingDate with
            | none => true
            | some (.str s) => matchesDateRegex s
            | some _ => false
          let timeOk := match b.recordingTime with
            | none => true
            | some (.str s) => matchesTimeRegex s
            | some _ => false
          let srcOk := match b.uploadSource with
            | none => true
            | some (.str s) => s = "ui" || s = "api"
            | some _ => false
          let locOk := match b.locationName with
            | none => true
            | some (.str _) => true
            | some _ => false
          if dateOk && timeOk && srcOk && locOk then
            some ⟨uri, dir,
              (match b.recordingDate with | some (.str s) => some s | _ => none),
              (match b.recordingTime with | some (.str s) => some s | _ => none),
              (match b.uploadSource with | some (.str s) => s | _ => "api"),
              (match b.locationName with | some (.str s) => s | _ => "N/A")⟩
          else none
        | none => none
      | _ => none
    else none
  | _ => none

/-- A request body as dispatched on the `content-type` header:
multipart form data, JSON, or an unsupported content type. -/
inductive RequestBody where
  | multipart (f : FormDataFields)
  | json (b : JsonBody)
  | other
deriving DecidableEq

/-- Response observed from an endpoint revision that persists records:
HTTP status, `error` body field, `messageFromServer` body field, the `id`
sent in a success payload, whether the model flow was invoked, and the
records actually persisted to the History Store by this request. -/
structure ApiOutcome where
  status : Nat
  errorMsg : Option String
  messageFromServer : Option String
  payloadId : Option String
  modelCalled : Bool
  persisted : List SavedRecord
deriving DecidableEq

/-- Rejection with a client error and no side effects at all. -/
def rejectedNoSideEffects (r : ApiOutcome) (code : Nat) : Prop :=
  r.status = code ∧ r.modelCalled = false ∧ r.persisted = []

/-- part_009 processing after input extraction: optional date/time format
check (400 on bad shape), `date-fns` parse to an optional recording time,
the model flow call, and the Firestore write whose failure is caught,
logged and swallowed (the response is still a 200 whose `id` is the
JS `undefined`, dropped from the payload). -/
def p009_afterExtract (videoDataUri : String) (dir : String) (videoFileName : String)
    (recDate recTime : Option String) (uploadSource locationName : String)
    (resp : ModelResponse) (store : StoreResult) (now : Nat) : ApiOutcome :=
  let dateChecked : Option (Option DateTimeYMDHM) :=
    match recDate, recTime with
    | some ds, some ts =>
      if matchesDateRegex ds && matchesTimeRegex ts then
        some (parseYMDHM (ds ++ " " ++ ts))
      else none
    | _, _ => some none
  match dateChecked with
  | none =>
    ⟨400, some "Invalid recordingDate or recordingTime format. Use YYYY-MM-DD and HH:MM.",
      none, none, false, []⟩
  | some recordingStartDateTime =>
    match countVisitorsFlow ⟨videoDataUri, dir⟩ resp with
    | .error e => ⟨500, some "Failed to process video.", some e, none, true, []⟩
    | .ok result =>
      let dataToSave : SavedRecord :=
        ⟨result.visitorCount, result.countedDirection, videoFileName,
          recordingStartDateTime, now, uploadSource, locationName⟩
      match store with
      | .ok id => ⟨200, none, none, some id, true, [dataToSave]⟩
      | .failed _ => ⟨200, none, none, none, true, []⟩

/-- The part_009 revision of `POST /api/upload-video` (validating revision
with a Firestore write; the write error is swallowed). -/
def POST_part009 (req : RequestBody) (resp : ModelResponse) (store : StoreResult)
    (now : Nat) : ApiOutcome :=
  match req with
  | .multipart f =>
    match f.videoFile with
    | none =>
      ⟨400, some "No video file found in form data. Please use field name \x22videoFile\x22.",
        none, none, false, []⟩
    | some file =>
      match f.direction with
      | none =>
        ⟨400, some "No direction specified in form data. Please use field name \x22direction\x22.",
          none, none, false, []⟩
      | some d =>
        match DirectionEnum_safeParse d with
        | none =>
          ⟨400, some ("Invalid direction value: " ++ d ++
            ". Must be one of \x27entering\x27, \x27exiting\x27."), none, none, false, []⟩
        | some dir =>
          if jsStartsWith (effectiveMime f file) "video/" then
            if file.size > MAX_FILE_SIZE_BYTES then
              ⟨413, some "File is too large. Maximum size is 50MB.", none, none, false, []⟩
            else
              p009_afterExtract ("data:" ++ effectiveMime f file ++ ";base64," ++ file.base64Content)
                dir file.name (normalizeOptStr f.recordingDate) (normalizeOptStr f.recordingTime)
                ((normalizeOptStr f.uploadSource).elim "api"
                  (fun s => if s = "ui" then "ui" else if s = "api" then "api" else "api"))
                ((normalizeOptStr f.locationName).getD "N/A") resp store now
          else
            ⟨400, some "Uploaded file is not a video or MIME type could not be determined as video. Ensure \x22type\x22 is set for \x22videoFile\x22 field if using curl (e.g., videoFile=@file.mp4;type=video/mp4) or that the browser sends a video type.",
              none, none, false, []⟩
  | .json b =>
    match ApiJsonInputSchema009_safeParse b with
    | none => ⟨400, some "Invalid JSON request body.", none, none, false, []⟩
    | some p =>
      p009_afterExtract p.videoDataUri p.direction "uploaded_video"
        p.recordingDate p.recordingTime p.uploadSource p.locationName resp store now
  | .other =>
    ⟨415, some "Unsupported Content-Type. Please use multipart/form-data or application/json.",
      none, none, false, []⟩

/-- Response of the first (store-less) revision of the route
(`route.ts` lines 22-106). -/
structure V1Outcome where
  status : Nat
  errorMsg : Option String
  modelCalled : Bool
deriving DecidableEq

/-- Parse of `ApiJsonInputSchema.safeParse` of the first route revision:
only `videoDataUri` (refined) and `direction` (enum). -/
def ApiJsonInputSchemaV1_safeParse (b : JsonBody) : Option (String × String) :=
  match b.videoDataUri with
  | some (.str uri) =>
    if validVideoDataUri uri then
      match b.direction with
      | some (.str d) =>
        match DirectionEnum_safeParse d with
        | some dir => some (uri, dir)
        | none => none
      | _ => none
    else none
  | _ => none

/-- The first revision of `POST /api/upload-video` (`route.ts` lines
22-106): full validation, model call, no store. Its invalid-direction
message still names `both` as accepted although `DirectionEnum` no longer
admits it. -/
def POST_route_v1 (req : RequestBody) (resp : ModelResponse) : V1Outcome :=
  match req with
  | .multipart f =>
    match f.videoFile with
    | none => ⟨400, some "No video file found in form data. Please use field name \x22videoFile\x22.", false⟩
    | some file =>
      match f.direction with
      | none => ⟨400, some "No direction specified in form data. Please use field name \x22direction\x22.", false⟩
      | some d =>
        match DirectionEnum_safeParse d with
        | none =>
          ⟨400, some ("Invalid direction value: " ++ d ++
            ". Must be one of \x27entering\x27, \x27exiting\x27, \x27both\x27."), false⟩
        | some dir =>
          if jsStartsWith (effectiveMime f file) "video/" then
            if file.size > MAX_FILE_SIZE_BYTES then
              ⟨413, some "File is too large. Maximum size is 50MB.", false⟩
            else
              match countVisitorsFlow
                  ⟨"data:" ++ effectiveMime f file ++ ";base64," ++ file.base64Content, dir⟩ resp with
              | .error e => ⟨500, some (if e = "" then "Failed to process video." else e), true⟩
              | .ok _ => ⟨200, none, true⟩
          else
            ⟨400, some "Uploaded file is not a video or MIME type could not be determined as video. Ensure \x22type\x22 is set for \x22videoFile\x22 field if using curl (e.g., videoFile=@file.mp4;type=video/mp4) or that the browser sends a video type.", false⟩
  | .json b =>
    match ApiJsonInputSchemaV1_safeParse b with
    | none => ⟨400, some "Invalid JSON request body.", false⟩
    | some p =>
      match countVisitorsFlow ⟨p.1, p.2⟩ resp with
      | .error e => ⟨500, some (if e = "" then "Failed to process video." else e), true⟩
      | .ok _ => ⟨200, none, true⟩
  | .other =>
    ⟨415, some "Unsupported Content-Type. Please use multipart/form-data or application/json.", false⟩

/-- Response of the dbAdmin revision of the route (`route.ts` lines
117-237), with its `error` / `messageFromServer` / `details` body. -/
structure AdminOutcome where
  status : Nat
  errorMsg : Option String
  messageFromServer : Option String
  details : Option String
  payloadId : Option String
  modelCalled : Bool
  persisted : List SavedRecord
deriving DecidableEq

/-- The catch-all error response of the dbAdmin revision: 500 with the
fixed `error` text, a `messageFromServer` carrying the thrown message, and
a fixed `details` pointer. -/
def adminCatch (e : String) (mc : Bool) : AdminOutcome :=
  ⟨500, some "Failed to process video due to an internal server error.",
    some ("An unexpected error occurred while processing the video." ++
      (if e.length = 0 then "" else " Server detail: " ++ e)),
    some "Check server logs for more specific error information.",
    none, mc, []⟩

/-- The dbAdmin revision of `POST /api/upload-video` (`route.ts` lines
117-237): checks only file presence and direction (no MIME or size
validation), calls the model flow, parses the optional recording time
(invalid parses only produce a warning and a null value), then writes to
Firestore through the admin SDK; any thrown error - including a store
failure - reaches the catch block and yields a 500. -/
def POST_route_admin (f : FormDataFields) (resp : ModelResponse) (dbAvailable : Bool)
    (store : StoreResult) (now : Nat) : AdminOutcome :=
  match f.videoFile with
  | none => ⟨400, some "Video file is required.", none, none, none, false, []⟩
  | some file =>
    match f.direction with
    | none => ⟨400, some "Valid direction (entering/exiting) is required.", none, none, none, false, []⟩
    | some d =>
      if d = "entering" || d = "exiting" then
        match countVisitorsFlow ⟨"data:" ++ file.mimeType ++ ";base64," ++ file.base64Content, d⟩ resp with
        | .error e => adminCatch e true
        | .ok aiResponse =>
          let recordingStartDateTime : Option DateTimeYMDHM :=
            match normalizeOptStr f.recordingDate, normalizeOptStr f.recordingTime with
            | some ds, some ts => parseYMDHM (ds ++ " " ++ ts)
            | _, _ => none
          if dbAvailable then
            let dataToSave : SavedRecord :=
              ⟨aiResponse.visitorCount, aiResponse.countedDirection, file.name,
                recordingStartDateTime, now,
                (normalizeOptStr f.uploadSource).getD "api",
                (normalizeOptStr f.locationName).getD "N/A"⟩
            match store with
            | .failed msg => adminCatch msg true
            | .ok id => ⟨200, none, none, none, some id, true, [dataToSave]⟩
          else
            adminCatch "Firestore admin instance is not available. Check server logs for firebaseAdmin.ts initialization." true
      else
        ⟨400, some "Valid direction (entering/exiting) is required.", none, none, none, false, []⟩

/-- Capture groups of one filename pattern match: the named `year` group
and the five positional groups (month, day, hour, minute, second). -/
structure MatchGroups where
  year : String
  mo : String
  dy : String
  hh : String
  mi : String
  ss : String
deriving DecidableEq

/-- Take exactly `n` decimal digits from the front of a character list
(`\d\x7bn\x7d` in a regex), returning them and the rest. -/
def takeDigits : Nat → List Char → Option (List Char × List Char)
  | 0, cs => some ([], cs)
  | _ + 1, [] => none
  | n + 1, c :: cs =>
    if c.isDigit then
      match takeDigits n cs with
      | some (ds, rest) => some (c :: ds, rest)
      | none => none
    else none

/-- Optionally consume one separator character (`[...]?` in a regex; the
separator sets are disjoint from the digits, so greedy matching is
deterministic and needs no backtracking). -/
def optSep (seps : List Char) (cs : List Char) : List Char :=
  match cs with
  | [] => []
  | c :: rest => if seps.contains c then rest else c :: rest

/-- Require one literal character (a mandatory separator in a pattern). -/
def litChar (c : Char) (cs : List Char) : Option (List Char) :=
  match cs with
  | d :: rest => if d = c then some rest else none
  | [] => none

/-- Match the first pattern
`(?<year>\d\x7b4\x7d)[-_]?(\d\x7b2\x7d)[-_]?(\d\x7b2\x7d)[-_ ]?(\d\x7b2\x7d)[-_:]?(\d\x7b2\x7d)[-_:]?(\d\x7b2\x7d)`
at the head of the character list. -/
def matchPat1At (cs : List Char) : Option MatchGroups :=
  match takeDigits 4 cs with
  | none => none
  | some (y, cs1) =>
    match takeDigits 2 (optSep ['-', '_'] cs1) with
    | none => none
    | some (mo, cs2) =>
      match takeDigits 2 (optSep ['-', '_'] cs2) with
      | none => none
      | some (dy, cs3) =>
        match takeDigits 2 (optSep ['-', '_', ' '] cs3) with
        | none => none
        | some (hh, cs4) =>
          match takeDigits 2 (optSep ['-', '_', ':'] cs4) with
          | none => none
          | some (mi, cs5) =>
            match takeDigits 2 (optSep ['-', '_', ':'] cs5) with
            | none => none
            | some (ss, _) =>
              some ⟨String.mk y, String.mk mo, String.mk dy,
                String.mk hh, String.mk mi, String.mk ss⟩

/-- Match the second pattern
`(?<year>\d\x7b4\x7d)(\d\x7b2\x7d)(\d\x7b2\x7d)_(\d\x7b2\x7d)(\d\x7b2\x7d)(\d\x7b2\x7d)`
at the head of the character list. -/
def matchPat2At (cs : List Char) : Option MatchGroups :=
  match takeDigits 4 cs with
  | none => none
  | some (y, cs1) =>
    match takeDigits 2 cs1 with
    | none => none
    | some (mo, cs2) =>
      match takeDigits 2 cs2 with
      | none => none
      | some (dy, cs3) =>
        match litChar '_' cs3 with
        | none => none
        | some cs4 =>
          match takeDigits 2 cs4 with
          | none => none
          | some (hh, cs5) =>
            match takeDigits 2 cs5 with
            | none => none
            | some (mi, cs6) =>
              match takeDigits 2 cs6 with
              | none => none
              | some (ss, _) =>
                some ⟨String.mk y, String.mk mo, String.mk dy,
                  String.mk hh, String.mk mi, String.mk ss⟩

/-- Match the third pattern
`(?<year>\d\x7b4\x7d)-(\d\x7b2\x7d)-(\d\x7b2\x7d)_(\d\x7b2\x7d)-(\d\x7b2\x7d)-(\d\x7b2\x7d)`
at the head of the character list. -/
def matchPat3At (cs : List Char) : Option MatchGroups :=
  match takeDigits 4 cs with
  | none => none
  | some (y, cs1) =>
    match litChar '-' cs1 with
    | none => none
    | some cs2 =>
      match takeDigits 2 cs2 with
      | none => none
      | some (mo, cs3) =>
        match litChar '-' cs3 with
        | none => none
        | some cs4 =>
          match takeDigits 2 cs4 with
          | none => none
          | some (dy, cs5) =>
            match litChar '_' cs5 with
            | none => none
            | some cs6 =>
              match takeDigits 2 cs6 with
              | none => none
              | some (hh, cs7) =>
                match litChar '-' cs7 with
                | none => none
                | some cs8 =>
                  match takeDigits 2 cs8 with
                  | none => none
                  | some (mi, cs9) =>
                    match litChar '-' cs9 with
                    | none => none
                    | some cs10 =>
                      match takeDigits 2 cs10 with
                      | none => none
                      | some (ss, _) =>
                        some ⟨String.mk y, String.mk mo, String.mk dy,
                          String.mk hh, String.mk mi, String.mk ss⟩

/-- Model of `String.prototype.match`: leftmost match of a pattern anywhere in the
string. -/
def searchMatch (f : List Char → Option MatchGroups) : List Char → Option MatchGroups
  | [] => f []
  | c :: rest =>
    match f (c :: rest) with
    | some g => some g
    | none => searchMatch f rest

/-- Body of the match branch of `parseDateTimeFromFilename`. All three
patterns carry a named `year` group, so `match.groups` is always defined
and `match.length` is 7: the code always takes the named-groups branch.
That branch destructures `const \x7b year, groups \x7d = match`, reading a
`year` property that does not exist on the match array - `year` is the JS
`undefined`, and the template literal interpolates the text `undefined`
into the string handed to `date-fns parse`, which therefore never
validates. (TypeScript flags this, but `next.config.ts` sets
`ignoreBuildErrors: true`.) -/
def attemptGroups (g : MatchGroups) : Option (String × String) :=
  let dateTimeString :=
    "undefined" ++ ("-" ++ g.mo ++ "-" ++ g.dy ++ " " ++ g.hh ++ ":" ++ g.mi ++ ":" ++ g.ss)
  match parseYMDHMS dateTimeString with
  | some dt => some (formatYMD dt, formatHM dt)
  | none => none

/-- Try one pattern: a match whose groups fail date validation is treated
like no match, so control falls through to the next pattern (the code
`return`s only on a valid parse). -/
def tryPattern (p : List Char → Option MatchGroups) (cs : List Char) :
    Option (String × String) :=
  match searchMatch p cs with
  | some g => attemptGroups g
  | none => none

/-- The parser `parseDateTimeFromFilename` from `src/app/page.tsx` lines 88-134: the
three patterns are tried in priority order. -/
def parseDateTimeFromFilename (filename : String) : Option String × Option String :=
  match tryPattern matchPat1At filename.data with
  | some r => (some r.1, some r.2)
  | none =>
    match tryPattern matchPat2At filename.data with
    | some r => (some r.1, some r.2)
    | none =>
      match tryPattern matchPat3At filename.data with
      | some r => (some r.1, some r.2)
      | none => (none, none)

/-- One history entry of the client page (`StatisticsData`): processed
model output, file name, and the recording start `Date` (which is `none`
when the stored value is an invalid `Date`). The opaque `id` and the
processing timestamp are irrelevant to the claims and omitted. -/
structure StatisticsData where
  visitorCount : Rat
  countedDirection : String
  videoFileName : String
  recordingStartDateTime : Option DateTimeYMDHM
deriving DecidableEq

/-- One selected file of the batch (`BatchFile`): the file plus the
date/time parsed from its filename, if any. -/
structure BatchFileM where
  name : String
  parsedDate : Option String
  parsedTime : Option String
deriving DecidableEq

/-- Resolution `batchFile.parsedDate || formRecordingDate`: the filename-parsed value
takes priority over the form fallback. -/
def resolvedDate (f : BatchFileM) (formDate : String) : String :=
  f.parsedDate.getD formDate

/-- Resolution `batchFile.parsedTime || formRecordingTime`. -/
def resolvedTime (f : BatchFileM) (formTime : String) : String :=
  f.parsedTime.getD formTime

/-- The handler `processSingleFile` from `src/app/page.tsx` lines 167-234: parse the
resolved date/time (invalid input is a failure before any model call);
then call the model; on success prepend a new entry to the history and
report success, on error report failure and leave the history unchanged. -/
def processSingleFile (f : BatchFileM) (dateToUse timeToUse : String)
    (modelResult : Except String CountVisitorsOutput)
    (hist : List StatisticsData) : Bool × List StatisticsData :=
  match parseYMDHM (dateToUse ++ " " ++ timeToUse) with
  | none => (false, hist)
  | some dt =>
    match modelResult with
    | .error _ => (false, hist)
    | .ok out => (true, ⟨out.visitorCount, out.countedDirection, f.name, some dt⟩ :: hist)

/-- Per-file report of the batch loop: the date/time actually used and
whether the file succeeded. -/
structure FileReport where
  usedDate : String
  usedTime : String
  ok : Bool
deriving DecidableEq

/-- Final state of `handleBatchSubmit`: whether the loop ran, the success
and failure counters, the (cleared) selection, the history, the per-file
trace, and the final aggregate toast message. -/
structure BatchResult where
  ran : Bool
  successCount : Nat
  errorCount : Nat
  finalSelection : List BatchFileM
  history : List StatisticsData
  trace : List FileReport
  report : Option String
deriving DecidableEq

/-- The aggregate toast text
`N file(s) processed successfully, M file(s) failed.`. -/
def reportMessage (succ err : Nat) : String :=
  renderNat succ ++ " file(s) processed successfully, " ++
    renderNat err ++ " file(s) failed."

/-- The sequential for-loop of `handleBatchSubmit`: one file at a time, in
order; a failure increments the error counter and the loop continues. The
`oracle` gives the model outcome for the i-th file. -/
def batchLoop (oracle : Nat → Except String CountVisitorsOutput)
    (formDate formTime : String) :
    List BatchFileM → Nat → Nat → Nat → List StatisticsData → List FileReport →
    Nat × Nat × List StatisticsData × List FileReport
  | [], _, succ, err, hist, tr => (succ, err, hist, tr)
  | f :: rest, i, succ, err, hist, tr =>
    let dateToUse := resolvedDate f formDate
    let timeToUse := resolvedTime f formTime
    let step := processSingleFile f dateToUse timeToUse (oracle i) hist
    batchLoop oracle formDate formTime rest (i + 1)
      (if step.1 then succ + 1 else succ)
      (if step.1 then err else err + 1)
      step.2
      (tr ++ [⟨dateToUse, timeToUse, step.1⟩])

/-- The handler `handleBatchSubmit` from `src/app/page.tsx` lines 236-274: empty
selection returns early; otherwise every file is processed sequentially,
the selection is cleared afterwards, and the aggregate toast reports the
success and failure counts. -/
def handleBatchSubmit (files : List BatchFileM) (formDate formTime : String)
    (oracle : Nat → Except String CountVisitorsOutput)
    (hist0 : List StatisticsData) : BatchResult :=
  if files.isEmpty then
    ⟨false, 0, 0, files, hist0, [], none⟩
  else
    let res := batchLoop oracle formDate formTime files 0 0 0 hist0 []
    ⟨true, res.1, res.2.1, [], res.2.2.1, res.2.2.2,
      some (reportMessage res.1 res.2.1)⟩

/-- The per-file reports the loop is expected to produce (used to state
that every file is visited with the priority-resolved date and time). -/
def expectedReports (oracle : Nat → Except String CountVisitorsOutput)
    (formDate formTime : String) : List BatchFileM → Nat → List FileReport
  | [], _ => []
  | f :: rest, i =>
    ⟨resolvedDate f formDate, resolvedTime f formTime,
      (processSingleFile f (resolvedDate f formDate) (resolvedTime f formTime) (oracle i) []).1⟩ ::
      expectedReports oracle formDate formTime rest (i + 1)

/-- Hourly bucket: hour of day with accumulated entering and exiting
counts. -/
abbrev SlotCounts := Nat × Rat × Rat

/-- Add one record to the hour buckets of a date (JS object semantics: a
new key is appended in insertion order; `entering`/`exiting` update their
component, any other direction only materialises the zero bucket). -/
def addToSlots (hour : Nat) (dir : String) (q : Rat) :
    List SlotCounts → List SlotCounts
  | [] =>
    [(hour,
      (if dir = "entering" then q else 0),
      (if dir = "entering" then 0 else if dir = "exiting" then q else 0))]
  | (h, ent, ex) :: rest =>
    if h = hour then
      (h,
        (if dir = "entering" then ent + q else ent),
        (if dir = "entering" then ex else if dir = "exiting" then ex + q else ex)) :: rest
    else (h, ent, ex) :: addToSlots hour dir q rest

/-- Date key of the aggregation: the `(year, month, day)` triple denoted by
the canonical `yyyy-MM-dd` object key. -/
abbrev DateKey := Nat × Nat × Nat

/-- Add one record to the per-date aggregation (JS object semantics as
above). -/
def addToDates (dk : DateKey) (hour : Nat) (dir : String) (q : Rat) :
    List (DateKey × List SlotCounts) → List (DateKey × List SlotCounts)
  | [] => [(dk, addToSlots hour dir q [])]
  | (k, slots) :: rest =>
    if k = dk then (k, addToSlots hour dir q slots) :: rest
    else (k, slots) :: addToDates dk hour dir q rest

/-- The aggregation `aggregateHourlyData` from `src/app/page.tsx` lines 300-324: entries
without a valid recording start time are skipped; the rest are bucketed by
`(yyyy-MM-dd, hour)` with `visitorCount` summed per direction. Object
string keys are represented by the decoded `(year, month, day)` triple and
the hour number (the canonical `yyyy-MM-dd` / `HH:00 - HH:59` keys are in
bijection with them, and are re-rendered at CSV output). -/
def aggregateHourlyData (hist : List StatisticsData) :
    List (DateKey × List SlotCounts) :=
  hist.foldl
    (fun acc e =>
      match e.recordingStartDateTime with
      | none => acc
      | some dt =>
        addToDates (dt.year, dt.month, dt.day) dt.hour e.countedDirection e.visitorCount acc)
    []

/-- Chronological order on date keys. For calendar-valid dates this is
exactly the order of `dateParse(key).getTime()` used by the CSV sort
comparator (the `yyyy-MM-dd` keys are canonical and zero-padded). -/
def dateKeyLE (a b : DateKey) : Prop :=
  a.1 < b.1 ∨ (a.1 = b.1 ∧ (a.2.1 < b.2.1 ∨ (a.2.1 = b.2.1 ∧ a.2.2 ≤ b.2.2)))

/-- Strict chronological order on date keys. -/
def dateKeyLT (a b : DateKey) : Prop :=
  a.1 < b.1 ∨ (a.1 = b.1 ∧ (a.2.1 < b.2.1 ∨ (a.2.1 = b.2.1 ∧ a.2.2 < b.2.2)))

instance : DecidableRel dateKeyLE := fun a b => by
  unfold dateKeyLE; infer_instance

instance : DecidableRel dateKeyLT := fun a b => by
  unfold dateKeyLT; infer_instance

/-- Order on aggregation entries by date key (`sortedDates` comparator:
`dateParse(a).getTime() - dateParse(b).getTime()`). -/
def aggEntryLE (a b : DateKey × List SlotCounts) : Prop := dateKeyLE a.1 b.1

instance : DecidableRel aggEntryLE := fun a b => by
  unfold aggEntryLE; infer_instance

instance : IsTotal (DateKey × List SlotCounts) aggEntryLE :=
  ⟨by intro a b; unfold aggEntryLE dateKeyLE; omega⟩

instance : IsTrans (DateKey × List SlotCounts) aggEntryLE :=
  ⟨by intro a b c hab hbc; unfold aggEntryLE dateKeyLE at *; omega⟩

/-- Order on hour buckets (`sortedTimeSlots` comparator:
`parseInt(a.split(":")[0]) - parseInt(b.split(":")[0])`, i.e. the hour). -/
def slotLE (a b : SlotCounts) : Prop := a.1 ≤ b.1

instance : DecidableRel slotLE := fun a b => by
  unfold slotLE; infer_instance

instance : IsTotal SlotCounts slotLE :=
  ⟨by intro a b; unfold slotLE; omega⟩

instance : IsTrans SlotCounts slotLE :=
  ⟨by intro a b c hab hbc; unfold slotLE at *; omega⟩

/-- The aggregation with dates sorted ascending and, within each date, hour
buckets sorted ascending (the two explicit sorts of `handleDownloadCSV`). -/
def sortedAgg (hist : List StatisticsData) : List (DateKey × List SlotCounts) :=
  (List.insertionSort aggEntryLE (aggregateHourlyData hist)).map
    (fun p => (p.1, List.insertionSort slotLE p.2))

/-- The `HH:00 - HH:59` time-slot label. -/
def timeSlotLabel (h : Nat) : String :=
  pad2 h ++ ":00 - " ++ pad2 h ++ ":59"

/-- The `yyyy-MM-dd` date label of a date key. -/
def dateKeyLabel (dk : DateKey) : String :=
  pad4 dk.1 ++ "-" ++ pad2 dk.2.1 ++ "-" ++ pad2 dk.2.2

/-- One CSV data row:
`date,"slot",entering,exiting`. -/
def csvRow (dk : DateKey) (s : SlotCounts) : String :=
  dateKeyLabel dk ++ "," ++ "\x22" ++ timeSlotLabel s.1 ++ "\x22" ++ "," ++
    renderNumber s.2.1 ++ "," ++ renderNumber s.2.2

/-- The CSV row list: header first, then the sorted data rows. -/
def csvRowsOf (hist : List StatisticsData) : List String :=
  "Date,Time Slot,Entering Visitors,Exiting Visitors" ::
    (sortedAgg hist).flatMap (fun p => p.2.map (fun s => csvRow p.1 s))

/-- The separator actually passed to `join` in `handleDownloadCSV`: the
source writes `csvRows.join("\x5c\x5cn")`, i.e. the TWO-character string
backslash-n, not a newline. -/
def csvJoinSeparator : String := "\x5cn"

/-- The export `handleDownloadCSV` from `src/app/page.tsx` lines 326-379 (the text of
the produced blob): early return without a CSV when the history or the
aggregate is empty, otherwise the joined row text. -/
def handleDownloadCSV (hist : List StatisticsData) : Option String :=
  if hist.isEmpty then none
  else if (aggregateHourlyData hist).isEmpty then none
  else some (joinWith csvJoinSeparator (csvRowsOf hist))

lemma parseYMDHMSChars_u (l : List Char) : parseYMDHMSChars ('u' :: l) = none := by
  have h : ('u').isDigit = false := by decide
  simp [parseYMDHMSChars, List.getD_cons_zero, h]

lemma data_undefined_append (r : String) :
    ("undefined" ++ r).data =
      'u' :: 'n' :: 'd' :: 'e' :: 'f' :: 'i' :: 'n' :: 'e' :: 'd' :: r.data := by
  rw [String.data_append]
  rfl

lemma attemptGroups_eq_none (g : MatchGroups) : attemptGroups g = none := by
  unfold attemptGroups
  have h : parseYMDHMS
      ("undefined" ++ ("-" ++ g.mo ++ "-" ++ g.dy ++ " " ++ g.hh ++ ":" ++ g.mi ++ ":" ++ g.ss)) =
      none := by
    unfold parseYMDHMS
    rw [data_undefined_append]
    exact parseYMDHMSChars_u _
  simp [h]

lemma tryPattern_eq_none (p : List Char → Option MatchGroups) (cs : List Char) :
    tryPattern p cs = none := by
  unfold tryPattern
  cases searchMatch p cs with
  | none => rfl
  | some g => exact attemptGroups_eq_none g

/-- C4: the claim says that for every filename matching a supported pattern
with a calendar-valid date and time the Metadata Parser returns exactly
that date and time. The code instead always returns the empty result, for
every filename: the match branch destructures the nonexistent `year`
property of the match array, so the string handed to `date-fns parse`
begins with the text `undefined` and never validates. (Non-matching and
calendar-invalid filenames do return the empty result, as claimed.) -/
theorem parseDateTimeFromFilename_always_empty (s : String) :
    parseDateTimeFromFilename s = (none, none) := by
  unfold parseDateTimeFromFilename
  rw [tryPattern_eq_none, tryPattern_eq_none, tryPattern_eq_none]

/-- A small valid multipart upload used as a concrete input. -/
def demoFile : UploadedFile := ⟨"entrance.mp4", "video/mp4", 1048576, "AAAA"⟩

/-- The corresponding form fields (direction `entering`, no optional
fields). -/
def demoForm : FormDataFields := ⟨some demoFile, some "entering", none, none, none, none, []⟩

/-- A model response carrying a valid structured output `7 / entering`. -/
def demoModelOk : ModelResponse := ⟨some ⟨.num 7, .str "entering"⟩, []⟩

/-- C1: the claim says a History Store write failure after a successful
model call is fatal to the request (error response, never a 200 success
payload without a persisted id). In the part_009 revision the Firestore
error is caught, logged and swallowed: on a valid request whose model call
succeeded and whose store write failed, the endpoint still responds 200,
the payload has no id (`id` is the dropped JS `undefined`), and nothing
was persisted. -/
theorem p009_store_failure_still_returns_200 :
    (POST_part009 (.multipart demoForm) demoModelOk (.failed "PERMISSION_DENIED") 0).status = 200 ∧
    (POST_part009 (.multipart demoForm) demoModelOk (.failed "PERMISSION_DENIED") 0).payloadId = none ∧
    (POST_part009 (.multipart demoForm) demoModelOk (.failed "PERMISSION_DENIED") 0).persisted = [] ∧
    (POST_part009 (.multipart demoForm) demoModelOk (.failed "PERMISSION_DENIED") 0).modelCalled = true := by
  refine ⟨by decide, by decide, by decide, by decide⟩

/-- C2 counterexample: `visitorCount: z.number()` has no `.int()` or
`.nonnegative()` refinement, so the value `-1` passes the output schema and
the dbAdmin endpoint persists it unchanged: a persisted record whose
`visitorCount` is negative. -/
theorem negative_count_passes_schema_and_is_persisted :
    CountVisitorsOutputSchema_safeParse ⟨.num (-1), .str "entering"⟩ =
      some ⟨-1, "entering"⟩ ∧
    (POST_route_admin demoForm ⟨some ⟨.num (-1), .str "entering"⟩, []⟩ true (.ok "doc1") 0).persisted =
      [⟨-1, "entering", "entrance.mp4", none, 0, "api", "N/A"⟩] ∧
    ¬ (0 ≤ (-1 : Rat)) := by
  refine ⟨by decide, by decide, by norm_num⟩

lemma flow_ok_of_schema_parse (inp : CountVisitorsInput)
    (resp : ModelResponse) (raw : RawOutput) (out : CountVisitorsOutput)
    (hout : resp.output = some raw)
    (hparse : CountVisitorsOutputSchema_safeParse raw = some out) :
    countVisitorsFlow inp resp = .ok out := by
  unfold countVisitorsFlow
  rw [hout]
  simp only []
  rw [hparse]

/-- C7: whenever the model response carries a structured output that passes
the output schema, the flow succeeds and returns the parsed output
unchanged - in particular `countedDirection` is the model value, even when
it differs from the requested direction (the mismatch is only a
`console.warn`, never an error). -/
theorem flow_returns_schema_output_unchanged (inp : CountVisitorsInput)
    (resp : ModelResponse) (raw : RawOutput) (out : CountVisitorsOutput)
    (hout : resp.output = some raw)
    (hparse : CountVisitorsOutputSchema_safeParse raw = some out) :
    countVisitorsFlow inp resp = .ok out :=
  flow_ok_of_schema_parse inp resp raw out hout hparse

/-- C7 witness: a model output echoing `exiting` against a requested
`entering` still succeeds, returning the mismatching direction unchanged. -/
theorem flow_returns_schema_output_unchanged_witness :
    (⟨some ⟨.num 7, .str "exiting"⟩, []⟩ : ModelResponse).output =
      some ⟨.num 7, .str "exiting"⟩ ∧
    CountVisitorsOutputSchema_safeParse ⟨.num 7, .str "exiting"⟩ =
      some ⟨7, "exiting"⟩ ∧
    ("exiting" : String) ≠ "entering" ∧
    countVisitorsFlow ⟨"data:video/mp4;base64,AAAA", "entering"⟩
        ⟨some ⟨.num 7, .str "exiting"⟩, []⟩ = .ok ⟨7, "exiting"⟩ :=
  ⟨rfl, by decide, by decide,
    flow_returns_schema_output_unchanged _ _ _ _ rfl (by decide)⟩

/-- C9: in the current revision (`types.ts` with the two-value
`DirectionEnum`, first route revision), every multipart request whose
`direction` field is `both` is rejected with a 400, while the 400 message
still advertises `both` as an accepted value. -/
theorem direction_both_rejected (f : FormDataFields) (resp : ModelResponse)
    (hd : f.direction = some "both") :
    (POST_route_v1 (.multipart f) resp).status = 400 ∧
    (∀ file, f.videoFile = some file →
      (POST_route_v1 (.multipart f) resp).errorMsg =
        some "Invalid direction value: both. Must be one of \x27entering\x27, \x27exiting\x27, \x27both\x27.") := by
  constructor
  · cases hv : f.videoFile with
    | none => simp [POST_route_v1, hv]
    | some file =>
      simp [POST_route_v1, hv, hd, DirectionEnum_safeParse]
  · intro file hfile
    simp [POST_route_v1, hfile, hd, DirectionEnum_safeParse]

/-- C9 witness: the concrete rejected request. -/
theorem direction_both_rejected_witness :
    (⟨some demoFile, some "both", none, none, none, none, []⟩ : FormDataFields).direction =
      some "both" ∧
    (POST_route_v1 (.multipart ⟨some demoFile, some "both", none, none, none, none, []⟩)
        demoModelOk).status = 400 ∧
    (POST_route_v1 (.multipart ⟨some demoFile, some "both", none, none, none, none, []⟩)
        demoModelOk).errorMsg =
      some "Invalid direction value: both. Must be one of \x27entering\x27, \x27exiting\x27, \x27both\x27." :=
  ⟨rfl, (direction_both_rejected _ demoModelOk rfl).1,
    (direction_both_rejected _ demoModelOk rfl).2 demoFile rfl⟩

/-- C2 amended: for every model value that passes the output schema, the
dbAdmin endpoint persists `visitorCount` exactly as returned: the schema
(`z.number()`) guarantees a genuine number (never `NaN`, never a
non-numeric type, modelled by `Rat` here), but nothing more - negative or
fractional schema-passing values are persisted unchanged. -/
theorem persisted_count_is_exactly_the_schema_number
    (f : FormDataFields) (file : UploadedFile) (d : String) (resp : ModelResponse)
    (raw : RawOutput) (out : CountVisitorsOutput) (id : String) (now : Nat)
    (hf : f.videoFile = some file) (hd : f.direction = some d)
    (hde : d = "entering" ∨ d = "exiting")
    (hout : resp.output = some raw)
    (hparse : CountVisitorsOutputSchema_safeParse raw = some out) :
    ∀ recd ∈ (POST_route_admin f resp true (.ok id) now).persisted,
      recd.visitorCount = out.visitorCount ∧
      recd.countedDirection = out.countedDirection := by
  have hflow : countVisitorsFlow
      ⟨"data:" ++ file.mimeType ++ ";base64," ++ file.base64Content, d⟩ resp = .ok out :=
    flow_ok_of_schema_parse _ _ _ _ hout hparse
  unfold POST_route_admin
  rw [hf, hd]
  have hcond : (d = "entering" || d = "exiting") = true := by
    rcases hde with h | h <;> simp [h]
  simp only [hcond, if_pos]
  rw [hflow]
  intro recd hrecd
  simp only [List.mem_singleton] at hrecd
  subst hrecd
  exact ⟨rfl, rfl⟩

/-- The record the dbAdmin endpoint persists for the `-3` model value. -/
def demoNegRecord : SavedRecord := ⟨-3, "entering", "entrance.mp4", none, 3, "api", "N/A"⟩

/-- C2 amended witness: the negative schema-passing value `-3` is
persisted exactly as returned. -/
theorem persisted_count_is_exactly_the_schema_number_witness :
    CountVisitorsOutputSchema_safeParse ⟨.num (-3), .str "entering"⟩ =
      some ⟨-3, "entering"⟩ ∧
    (POST_route_admin demoForm ⟨some ⟨.num (-3), .str "entering"⟩, []⟩
        true (.ok "doc2") 3).persisted = [demoNegRecord] ∧
    demoNegRecord.visitorCount = (-3 : Rat) :=
  ⟨by decide, by decide,
    (persisted_count_is_exactly_the_schema_number demoForm demoFile "entering"
      ⟨some ⟨.num (-3), .str "entering"⟩, []⟩ ⟨.num (-3), .str "entering"⟩
      ⟨-3, "entering"⟩ "doc2" 3 rfl rfl (Or.inl rfl) rfl (by decide)
      demoNegRecord (by decide)).1⟩

/-- A model invocation that returns no usable structured payload: either no
structured output at all (blocked or malformed response) or output that
fails the schema. -/
def NoUsableOutput (resp : ModelResponse) : Prop :=
  resp.output = none ∨
    ∃ raw, resp.output = some raw ∧ CountVisitorsOutputSchema_safeParse raw = none

/-- The diagnostic message the flow throws on an unusable payload. -/
def flowDiagnostic (resp : ModelResponse) : String :=
  match resp.output with
  | none => noOutputErrorMessage resp.candidates
  | some raw => validationErrorMessage raw

lemma flow_error_of_no_usable (inp : CountVisitorsInput) (resp : ModelResponse)
    (h : NoUsableOutput resp) :
    countVisitorsFlow inp resp = .error (flowDiagnostic resp) := by
  unfold countVisitorsFlow flowDiagnostic
  rcases h with h | ⟨raw, hraw, hparse⟩
  · rw [h]
  · rw [hraw]
    simp only []
    rw [hparse]

lemma noOutput_contains_finishReason (cands : List Candidate) (c : Candidate)
    (hc : cands.head? = some c) :
    ∃ p q, noOutputErrorMessage cands = p ++ c.finishReason ++ q := by
  unfold noOutputErrorMessage
  rw [hc]
  simp only []
  rcases c.messageContent with _ | mc
  · by_cases hs : c.safetyRatings.isEmpty
    · exact ⟨"LLM did not return valid structured output or was blocked. Finish reason: ",
        ".", by simp [hs, String.append_assoc]⟩
    · exact ⟨"LLM did not return valid structured output or was blocked. Finish reason: ",
        ". Safety Ratings: " ++ (serializeSafetyRatings c.safetyRatings ++ "."),
        by simp [hs, String.append_assoc]⟩
  · by_cases hm : mc.length > 0
    · by_cases hs : c.safetyRatings.isEmpty
      · exact ⟨"LLM did not return valid structured output or was blocked. Finish reason: ",
          ". Message content: " ++ (mc ++ "."),
          by simp [hs, hm, String.append_assoc]⟩
      · exact ⟨"LLM did not return valid structured output or was blocked. Finish reason: ",
          ". Message content: " ++
            (mc ++ (". Safety Ratings: " ++ (serializeSafetyRatings c.safetyRatings ++ "."))),
          by simp [hs, hm, String.append_assoc]⟩
    · by_cases hs : c.safetyRatings.isEmpty
      · exact ⟨"LLM did not return valid structured output or was blocked. Finish reason: ",
          ".", by simp [hs, hm, String.append_assoc]⟩
      · exact ⟨"LLM did not return valid structured output or was blocked. Finish reason: ",
          ". Safety Ratings: " ++ (serializeSafetyRatings c.safetyRatings ++ "."),
          by simp [hs, hm, String.append_assoc]⟩

lemma noOutput_contains_safety (cands : List Candidate) (c : Candidate)
    (hc : cands.head? = some c) (hs : c.safetyRatings ≠ []) :
    ∃ p q, noOutputErrorMessage cands =
      p ++ serializeSafetyRatings c.safetyRatings ++ q := by
  unfold noOutputErrorMessage
  rw [hc]
  simp only []
  have hs2 : c.safetyRatings.isEmpty = false := by
    simpa using hs
  rcases c.messageContent with _ | mc
  · exact ⟨("LLM did not return valid structured output or was blocked. Finish reason: " ++
      c.finishReason ++ ".") ++ " Safety Ratings: ", ".",
      by simp [hs2, String.append_assoc]⟩
  · by_cases hm : mc.length > 0
    · exact ⟨(("LLM did not return valid structured output or was blocked. Finish reason: " ++
        c.finishReason ++ ".") ++ " Message content: " ++ mc ++ ".") ++ " Safety Ratings: ",
        ".", by simp [hs2, hm, String.append_assoc]⟩
    · exact ⟨("LLM did not return valid structured output or was blocked. Finish reason: " ++
        c.finishReason ++ ".") ++ " Safety Ratings: ", ".",
        by simp [hs2, hm, String.append_assoc]⟩

/-- C6: whenever the model returns no usable structured payload (blocked
response, no structured output, or schema-violating fields), the flow fails
with the diagnostic message - which, when a candidate is present, carries
the finish reason, and carries the serialized safety ratings when present -
and the dbAdmin Upload Endpoint then responds 500 with a `details` field,
a `messageFromServer` containing the diagnostic, and writes no record. -/
theorem model_failure_gives_500_and_no_record
    (f : FormDataFields) (file : UploadedFile) (d : String) (resp : ModelResponse)
    (dbAvailable : Bool) (store : StoreResult) (now : Nat)
    (hf : f.videoFile = some file) (hd : f.direction = some d)
    (hde : d = "entering" ∨ d = "exiting")
    (hnu : NoUsableOutput resp) :
    (∀ inp : CountVisitorsInput, countVisitorsFlow inp resp = .error (flowDiagnostic resp)) ∧
    (resp.output = none → ∀ c, resp.candidates.head? = some c →
      (∃ p q, flowDiagnostic resp = p ++ c.finishReason ++ q) ∧
      (c.safetyRatings ≠ [] →
        ∃ p q, flowDiagnostic resp = p ++ serializeSafetyRatings c.safetyRatings ++ q)) ∧
    (POST_route_admin f resp dbAvailable store now).status = 500 ∧
    (POST_route_admin f resp dbAvailable store now).persisted = [] ∧
    (POST_route_admin f resp dbAvailable store now).modelCalled = true ∧
    (POST_route_admin f resp dbAvailable store now).details =
      some "Check server logs for more specific error information." ∧
    (∃ p q, (POST_route_admin f resp dbAvailable store now).messageFromServer =
      some (p ++ flowDiagnostic resp ++ q)) := by
  have hflow : ∀ inp : CountVisitorsInput,
      countVisitorsFlow inp resp = .error (flowDiagnostic resp) :=
    fun inp => flow_error_of_no_usable inp resp hnu
  have hpost : POST_route_admin f resp dbAvailable store now =
      adminCatch (flowDiagnostic resp) true := by
    unfold POST_route_admin
    rw [hf, hd]
    have hcond : (d = "entering" || d = "exiting") = true := by
      rcases hde with h | h <;> simp [h]
    simp only [hcond, if_pos]
    rw [hflow]
  refine ⟨hflow, ?_, ?_, ?_, ?_, ?_, ?_⟩
  · intro hnone c hc
    have hdiag : flowDiagnostic resp = noOutputErrorMessage resp.candidates := by
      unfold flowDiagnostic
      rw [hnone]
    refine ⟨?_, ?_⟩
    · rw [hdiag]; exact noOutput_contains_finishReason _ _ hc
    · intro hs
      rw [hdiag]; exact noOutput_contains_safety _ _ hc hs
  · rw [hpost]; rfl
  · rw [hpost]; rfl
  · rw [hpost]; rfl
  · rw [hpost]; rfl
  · rw [hpost]
    unfold adminCatch
    by_cases he : (flowDiagnostic resp).length = 0
    · have he2 : flowDiagnostic resp = "" := by
        cases hstr : flowDiagnostic resp with
        | mk l =>
          rw [hstr] at he
          simp [String.length] at he
          simp [he]
      refine ⟨"An unexpected error occurred while processing the video.", "", ?_⟩
      simp [he, he2]
    · refine ⟨"An unexpected error occurred while processing the video. Server detail: ", "", ?_⟩
      simp only [he, if_neg, String.append_empty, ite_false]
      rw [← String.append_assoc]
      rfl

/-- A safety-blocked model response: no structured output, one candidate
with a finish reason and safety ratings. -/
def demoBlockedResp : ModelResponse :=
  ⟨none, [⟨"SAFETY", some "Blocked for safety reasons.",
    ["HARM_CATEGORY_DANGEROUS_CONTENT: HIGH"]⟩]⟩

/-- C6 witness: the blocked response yields a 500 with no record. -/
theorem model_failure_gives_500_and_no_record_witness :
    demoForm.videoFile = some demoFile ∧
    demoForm.direction = some "entering" ∧
    NoUsableOutput demoBlockedResp ∧
    (POST_route_admin demoForm demoBlockedResp true (.ok "x") 0).status = 500 ∧
    (POST_route_admin demoForm demoBlockedResp true (.ok "x") 0).persisted = [] :=
  ⟨rfl, rfl, Or.inl rfl,
    (model_failure_gives_500_and_no_record demoForm demoFile "entering" demoBlockedResp
      true (.ok "x") 0 rfl rfl (Or.inl rfl) (Or.inl rfl)).2.2.1,
    (model_failure_gives_500_and_no_record demoForm demoFile "entering" demoBlockedResp
      true (.ok "x") 0 rfl rfl (Or.inl rfl) (Or.inl rfl)).2.2.2.1⟩

/-- C3 amended: the part_009 revision (the validating revision that also
persists) validates before any model call or store write - a missing file,
a missing or invalid direction, or a non-video MIME type each yield a 400,
and an otherwise-valid file over 50 MB yields a 413; in every such case the
model is never invoked and the History Store is unchanged. (The dbAdmin
revision checks only file presence and direction; see the counterexample
theorem for its behaviour on a 60 MB upload.) -/
theorem p009_validates_before_side_effects (f : FormDataFields) (resp : ModelResponse)
    (store : StoreResult) (now : Nat) :
    (f.videoFile = none →
      rejectedNoSideEffects (POST_part009 (.multipart f) resp store now) 400) ∧
    (f.direction = none →
      rejectedNoSideEffects (POST_part009 (.multipart f) resp store now) 400) ∧
    (∀ d, f.direction = some d → DirectionEnum_safeParse d = none →
      rejectedNoSideEffects (POST_part009 (.multipart f) resp store now) 400) ∧
    (∀ file, f.videoFile = some file →
      jsStartsWith (effectiveMime f file) "video/" = false →
      rejectedNoSideEffects (POST_part009 (.multipart f) resp store now) 400) ∧
    (∀ file d, f.videoFile = some file → f.direction = some d →
      DirectionEnum_safeParse d ≠ none →
      jsStartsWith (effectiveMime f file) "video/" = true →
      file.size > MAX_FILE_SIZE_BYTES →
      rejectedNoSideEffects (POST_part009 (.multipart f) resp store now) 413) := by
  refine ⟨?_, ?_, ?_, ?_, ?_⟩
  · intro h
    simp only [POST_part009, h]
    exact ⟨rfl, rfl, rfl⟩
  · intro h
    cases hv : f.videoFile with
    | none =>
      simp only [POST_part009, hv]
      exact ⟨rfl, rfl, rfl⟩
    | some file =>
      simp only [POST_part009, hv, h]
      exact ⟨rfl, rfl, rfl⟩
  · intro d hd hparse
    cases hv : f.videoFile with
    | none =>
      simp only [POST_part009, hv]
      exact ⟨rfl, rfl, rfl⟩
    | some file =>
      simp only [POST_part009, hv, hd, hparse]
      exact ⟨rfl, rfl, rfl⟩
  · intro file hv hmime
    cases hd : f.direction with
    | none =>
      simp only [POST_part009, hv, hd]
      exact ⟨rfl, rfl, rfl⟩
    | some d =>
      cases hparse : DirectionEnum_safeParse d with
      | none =>
        simp only [POST_part009, hv, hd, hparse]
        exact ⟨rfl, rfl, rfl⟩
      | some dir =>
        simp only [POST_part009, hv, hd, hparse, hmime, Bool.false_eq_true, if_false]
        exact ⟨rfl, rfl, rfl⟩
  · intro file d hv hd hparse hmime hsize
    obtain ⟨dir, hdir⟩ : ∃ dir, DirectionEnum_safeParse d = some dir := by
      cases hp : DirectionEnum_safeParse d with
      | none => exact absurd hp hparse
      | some dir => exact ⟨dir, rfl⟩
    simp only [POST_part009, hv, hd, hdir, hmime, if_true, if_pos hsize]
    exact ⟨rfl, rfl, rfl⟩

/-- A 60 MB video file. -/
def demo60MBFile : UploadedFile := ⟨"big.mp4", "video/mp4", 60 * 1024 * 1024, "AAAA"⟩

/-- The corresponding form fields with a valid direction. -/
def demo60MBForm : FormDataFields :=
  ⟨some demo60MBFile, some "entering", none, none, none, none, []⟩

/-- C3 counterexample: the claim (a 60 MB upload gets a 413 and the store
is unchanged, for every upload request) fails on the dbAdmin revision of
the Upload Endpoint, which has no size (or MIME) check at all: a 60 MB
upload with a successful model call is processed, persisted and answered
with a 200, not a 413. -/
theorem admin_accepts_60mb_upload :
    demo60MBFile.size = 60 * 1024 * 1024 ∧
    MAX_FILE_SIZE_BYTES < demo60MBFile.size ∧
    (POST_route_admin demo60MBForm demoModelOk true (.ok "doc60") 7).status = 200 ∧
    (POST_route_admin demo60MBForm demoModelOk true (.ok "doc60") 7).status ≠ 413 ∧
    (POST_route_admin demo60MBForm demoModelOk true (.ok "doc60") 7).persisted =
      [⟨7, "entering", "big.mp4", none, 7, "api", "N/A"⟩] := by
  refine ⟨rfl, by decide, by decide, by decide, by decide⟩

/-- C3 witness: the same 60 MB upload on the part_009 revision is answered
with a 413 before any model call or store write. -/
theorem p009_validates_before_side_effects_witness :
    demo60MBForm.videoFile = some demo60MBFile ∧
    demo60MBForm.direction = some "entering" ∧
    DirectionEnum_safeParse "entering" ≠ none ∧
    jsStartsWith (effectiveMime demo60MBForm demo60MBFile) "video/" = true ∧
    demo60MBFile.size > MAX_FILE_SIZE_BYTES ∧
    rejectedNoSideEffects
      (POST_part009 (.multipart demo60MBForm) demoModelOk (.ok "doc60") 7) 413 :=
  ⟨rfl, rfl, by decide, by decide, by decide,
    (p009_validates_before_side_effects demo60MBForm demoModelOk (.ok "doc60") 7).2.2.2.2
      demo60MBFile "entering" rfl rfl (by decide) (by decide) (by decide)⟩

lemma processSingleFile_fst_independent_of_hist (f : BatchFileM) (d t : String)
    (mr : Except String CountVisitorsOutput) (hist : List StatisticsData) :
    (processSingleFile f d t mr hist).1 = (processSingleFile f d t mr []).1 := by
  unfold processSingleFile
  cases parseYMDHM (d ++ " " ++ t) with
  | none => rfl
  | some dt => cases mr <;> rfl

lemma processSingleFile_snd_length (f : BatchFileM) (d t : String)
    (mr : Except String CountVisitorsOutput) (hist : List StatisticsData) :
    (processSingleFile f d t mr hist).2.length =
      hist.length + (if (processSingleFile f d t mr hist).1 then 1 else 0) := by
  unfold processSingleFile
  cases parseYMDHM (d ++ " " ++ t) with
  | none => simp
  | some dt => cases mr <;> simp

lemma expectedReports_length (oracle : Nat → Except String CountVisitorsOutput)
    (formD formT : String) :
    ∀ (files : List BatchFileM) (i : Nat),
      (expectedReports oracle formD formT files i).length = files.length
  | [], _ => rfl
  | _ :: rest, i => by
    simp [expectedReports, expectedReports_length oracle formD formT rest (i + 1)]

lemma batchLoop_spec (oracle : Nat → Except String CountVisitorsOutput)
    (formD formT : String) (files : List BatchFileM) :
    ∀ (i succ err : Nat) (hist : List StatisticsData) (tr : List FileReport),
    (batchLoop oracle formD formT files i succ err hist tr).2.2.2 =
      tr ++ expectedReports oracle formD formT files i ∧
    (batchLoop oracle formD formT files i succ err hist tr).1 =
      succ + (expectedReports oracle formD formT files i).countP (fun t => t.ok) ∧
    (batchLoop oracle formD formT files i succ err hist tr).2.1 =
      err + (expectedReports oracle formD formT files i).countP (fun t => !t.ok) ∧
    (batchLoop oracle formD formT files i succ err hist tr).2.2.1.length =
      hist.length + (expectedReports oracle formD formT files i).countP (fun t => t.ok) := by
  induction files with
  | nil =>
    intro i succ err hist tr
    simp [batchLoop, expectedReports]
  | cons f rest ih =>
    intro i succ err hist tr
    have hfst := processSingleFile_fst_independent_of_hist f (resolvedDate f formD)
      (resolvedTime f formT) (oracle i) hist
    have hlen := processSingleFile_snd_length f (resolvedDate f formD)
      (resolvedTime f formT) (oracle i) hist
    obtain ⟨ih1, ih2, ih3, ih4⟩ := ih (i + 1)
      (if (processSingleFile f (resolvedDate f formD) (resolvedTime f formT) (oracle i) hist).1
        then succ + 1 else succ)
      (if (processSingleFile f (resolvedDate f formD) (resolvedTime f formT) (oracle i) hist).1
        then err else err + 1)
      (processSingleFile f (resolvedDate f formD) (resolvedTime f formT) (oracle i) hist).2
      (tr ++ [⟨resolvedDate f formD, resolvedTime f formT,
        (processSingleFile f (resolvedDate f formD) (resolvedTime f formT) (oracle i) hist).1⟩])
    refine ⟨?_, ?_, ?_, ?_⟩
    · show (batchLoop oracle formD formT rest (i + 1) _ _ _ _).2.2.2 = _
      rw [ih1]
      simp [expectedReports, hfst]
    · show (batchLoop oracle formD formT rest (i + 1) _ _ _ _).1 = _
      rw [ih2]
      simp only [expectedReports, List.countP_cons, hfst]
      cases hstep : (processSingleFile f (resolvedDate f formD) (resolvedTime f formT)
          (oracle i) []).1 <;> simp [hstep] <;> omega
    · show (batchLoop oracle formD formT rest (i + 1) _ _ _ _).2.1 = _
      rw [ih3]
      simp only [expectedReports, List.countP_cons, hfst]
      cases hstep : (processSingleFile f (resolvedDate f formD) (resolvedTime f formT)
          (oracle i) []).1 <;> simp [hstep] <;> omega
    · show (batchLoop oracle formD formT rest (i + 1) _ _ _ _).2.2.1.length = _
      rw [ih4, hlen]
      simp only [expectedReports, List.countP_cons, hfst]
      cases hstep : (processSingleFile f (resolvedDate f formD) (resolvedTime f formT)
          (oracle i) []).1 <;> simp [hstep] <;> omega

/-- C5: on a non-empty selection the Batch Upload Controller processes
every file sequentially (the trace has one report per file, in order, and
equals the expected per-file resolution with the filename-parsed date/time
taking priority over the form fallback); a failure never aborts the batch
(success and failure counts always sum to the number of files); the history
gains exactly one persisted entry per success; the final aggregate toast
reports exactly the success and failure counts; and the selection is
cleared afterwards. -/
theorem handleBatchSubmit_spec (files : List BatchFileM) (formD formT : String)
    (oracle : Nat → Except String CountVisitorsOutput)
    (hist0 : List StatisticsData) (hne : files ≠ []) :
    (handleBatchSubmit files formD formT oracle hist0).ran = true ∧
    (handleBatchSubmit files formD formT oracle hist0).finalSelection = [] ∧
    (handleBatchSubmit files formD formT oracle hist0).trace =
      expectedReports oracle formD formT files 0 ∧
    (handleBatchSubmit files formD formT oracle hist0).trace.length = files.length ∧
    (handleBatchSubmit files formD formT oracle hist0).successCount =
      (handleBatchSubmit files formD formT oracle hist0).trace.countP (fun t => t.ok) ∧
    (handleBatchSubmit files formD formT oracle hist0).errorCount =
      (handleBatchSubmit files formD formT oracle hist0).trace.countP (fun t => !t.ok) ∧
    (handleBatchSubmit files formD formT oracle hist0).successCount +
      (handleBatchSubmit files formD formT oracle hist0).errorCount = files.length ∧
    (handleBatchSubmit files formD formT oracle hist0).history.length =
      hist0.length + (handleBatchSubmit files formD formT oracle hist0).successCount ∧
    (handleBatchSubmit files formD formT oracle hist0).report =
      some (reportMessage (handleBatchSubmit files formD formT oracle hist0).successCount
        (handleBatchSubmit files formD formT oracle hist0).errorCount) := by
  have hemp : files.isEmpty = false := by
    cases files with
    | nil => exact absurd rfl hne
    | cons a l => rfl
  obtain ⟨h1, h2, h3, h4⟩ := batchLoop_spec oracle formD formT files 0 0 0 hist0 []
  have hsum : ∀ l : List FileReport,
      l.countP (fun t => t.ok) + l.countP (fun t => !t.ok) = l.length := by
    intro l
    induction l with
    | nil => rfl
    | cons a l ih =>
      simp only [List.countP_cons, List.length_cons]
      cases ha : a.ok <;> simp [ha] <;> omega
  unfold handleBatchSubmit
  rw [hemp]
  simp only [Bool.false_eq_true, if_false]
  refine ⟨trivial, trivial, ?_, ?_, ?_, ?_, ?_, ?_, trivial⟩
  · simpa using h1
  · show (batchLoop oracle formD formT files 0 0 0 hist0 []).2.2.2.length = files.length
    rw [h1]
    simpa using expectedReports_length oracle formD formT files 0
  · show (batchLoop oracle formD formT files 0 0 0 hist0 []).1 = _
    rw [h2, h1]
    simp
  · show (batchLoop oracle formD formT files 0 0 0 hist0 []).2.1 = _
    rw [h3, h1]
    simp
  · show (batchLoop oracle formD formT files 0 0 0 hist0 []).1 +
      (batchLoop oracle formD formT files 0 0 0 hist0 []).2.1 = files.length
    rw [h2, h3]
    have := hsum (expectedReports oracle formD formT files 0)
    have := expectedReports_length oracle formD formT files 0
    omega
  · show (batchLoop oracle formD formT files 0 0 0 hist0 []).2.2.1.length = _
    rw [h4, h2]
    omega

/-- A two-file batch selection: the first without filename metadata, the
second with parsed date and time. -/
def demoBatchFiles : List BatchFileM :=
  [⟨"a.mp4", none, none⟩, ⟨"b.mp4", some "2024-07-12", some "14:30"⟩]

/-- A model oracle succeeding on the first file and failing on the second
(an induced model failure). -/
def demoOracle : Nat → Except String CountVisitorsOutput :=
  fun i => if i = 0 then .ok ⟨7, "entering"⟩ else .error "Induced model failure"

/-- C5 witness: the two-file batch with one induced failure. -/
theorem handleBatchSubmit_spec_witness :
    demoBatchFiles ≠ [] ∧
    (handleBatchSubmit demoBatchFiles "2024-01-01" "09:00" demoOracle []).finalSelection = [] ∧
    (handleBatchSubmit demoBatchFiles "2024-01-01" "09:00" demoOracle []).successCount +
      (handleBatchSubmit demoBatchFiles "2024-01-01" "09:00" demoOracle []).errorCount =
      demoBatchFiles.length :=
  ⟨by decide,
    (handleBatchSubmit_spec demoBatchFiles "2024-01-01" "09:00" demoOracle [] (by decide)).2.1,
    (handleBatchSubmit_spec demoBatchFiles "2024-01-01" "09:00" demoOracle []
      (by decide)).2.2.2.2.2.2.1⟩

lemma addToSlots_map_fst (hour : Nat) (dir : String) (q : Rat) :
    ∀ sl : List SlotCounts,
      (addToSlots hour dir q sl).map Prod.fst =
        if hour ∈ sl.map Prod.fst then sl.map Prod.fst
        else sl.map Prod.fst ++ [hour]
  | [] => by simp [addToSlots]
  | (h, ent, ex) :: rest => by
    by_cases hh : h = hour
    · subst hh
      simp [addToSlots]
    · have := addToSlots_map_fst hour dir q rest
      simp only [addToSlots, if_neg hh, List.map_cons, this]
      by_cases hmem : hour ∈ rest.map Prod.fst
      · simp [hmem, Ne.symm hh]
      · simp [hmem, Ne.symm hh]

lemma addToSlots_nodup (hour : Nat) (dir : String) (q : Rat) (sl : List SlotCounts)
    (h : (sl.map Prod.fst).Nodup) :
    ((addToSlots hour dir q sl).map Prod.fst).Nodup := by
  rw [addToSlots_map_fst]
  by_cases hmem : hour ∈ sl.map Prod.fst
  · simpa [hmem] using h
  · simp [hmem, List.nodup_append, h]

lemma addToDates_map_fst (dk : DateKey) (hour : Nat) (dir : String) (q : Rat) :
    ∀ l : List (DateKey × List SlotCounts),
      (addToDates dk hour dir q l).map Prod.fst =
        if dk ∈ l.map Prod.fst then l.map Prod.fst
        else l.map Prod.fst ++ [dk]
  | [] => by simp [addToDates]
  | (k, slots) :: rest => by
    by_cases hh : k = dk
    · subst hh
      simp [addToDates]
    · have := addToDates_map_fst dk hour dir q rest
      simp only [addToDates, if_neg hh, List.map_cons, this]
      by_cases hmem : dk ∈ rest.map Prod.fst
      · simp [hmem, Ne.symm hh]
      · simp [hmem, Ne.symm hh]

lemma addToDates_nodup (dk : DateKey) (hour : Nat) (dir : String) (q : Rat)
    (l : List (DateKey × List SlotCounts)) (h : (l.map Prod.fst).Nodup) :
    ((addToDates dk hour dir q l).map Prod.fst).Nodup := by
  rw [addToDates_map_fst]
  by_cases hmem : dk ∈ l.map Prod.fst
  · simpa [hmem] using h
  · simp [hmem, List.nodup_append, h]

lemma addToDates_forall {P : List SlotCounts → Prop} (dk : DateKey) (hour : Nat)
    (dir : String) (q : Rat)
    (hstep : ∀ sl, P sl → P (addToSlots hour dir q sl))
    (hnil : P (addToSlots hour dir q []))
    (l : List (DateKey × List SlotCounts)) (hl : ∀ r ∈ l, P r.2) :
    ∀ r ∈ addToDates dk hour dir q l, P r.2 := by
  induction l with
  | nil =>
    intro r hr
    simp only [addToDates, List.mem_singleton] at hr
    subst hr
    exact hnil
  | cons p rest ih =>
    obtain ⟨k, slots⟩ := p
    intro r hr
    have hslots : P slots := hl (k, slots) (by simp)
    have hrest : ∀ x ∈ rest, P x.2 := fun x hx => hl x (List.mem_cons_of_mem _ hx)
    by_cases hh : k = dk
    · rw [show addToDates dk hour dir q ((k, slots) :: rest) =
          (k, addToSlots hour dir q slots) :: rest from by
        simp [addToDates, hh]] at hr
      rcases List.mem_cons.mp hr with hr1 | hr1
      · subst hr1
        exact hstep slots hslots
      · exact hrest r hr1
    · rw [show addToDates dk hour dir q ((k, slots) :: rest) =
          (k, slots) :: addToDates dk hour dir q rest from by
        simp [addToDates, hh]] at hr
      rcases List.mem_cons.mp hr with hr1 | hr1
      · subst hr1
        exact hslots
      · exact ih hrest r hr1

/-- Both levels of the aggregation have pairwise-distinct keys. -/
lemma aggregate_invariant (hist : List StatisticsData) :
    ((aggregateHourlyData hist).map Prod.fst).Nodup ∧
    ∀ r ∈ aggregateHourlyData hist, (r.2.map Prod.fst).Nodup := by
  unfold aggregateHourlyData
  suffices h : ∀ (l : List StatisticsData) (acc : List (DateKey × List SlotCounts)),
      (acc.map Prod.fst).Nodup → (∀ r ∈ acc, (r.2.map Prod.fst).Nodup) →
      ((l.foldl (fun acc e =>
          match e.recordingStartDateTime with
          | none => acc
          | some dt =>
            addToDates (dt.year, dt.month, dt.day) dt.hour e.countedDirection e.visitorCount acc)
        acc).map Prod.fst).Nodup ∧
      ∀ r ∈ l.foldl (fun acc e =>
          match e.recordingStartDateTime with
          | none => acc
          | some dt =>
            addToDates (dt.year, dt.month, dt.day) dt.hour e.countedDirection e.visitorCount acc)
        acc, (r.2.map Prod.fst).Nodup by
    exact h hist [] (by simp) (by simp)
  intro l
  induction l with
  | nil =>
    intro acc h1 h2
    exact ⟨h1, h2⟩
  | cons e t ih =>
    intro acc h1 h2
    simp only [List.foldl_cons]
    cases he : e.recordingStartDateTime with
    | none =>
      exact ih acc h1 h2
    | some dt =>
      refine ih _ (addToDates_nodup _ _ _ _ _ h1) ?_
      exact addToDates_forall _ _ _ _
        (fun sl hsl => addToSlots_nodup _ _ _ sl hsl)
        (by simp [addToSlots]) acc h2

lemma dateKey_lt_of_le_ne (a b : DateKey) (h1 : dateKeyLE a b) (h2 : a ≠ b) :
    dateKeyLT a b := by
  obtain ⟨a1, a2, a3⟩ := a
  obtain ⟨b1, b2, b3⟩ := b
  unfold dateKeyLE at h1
  unfold dateKeyLT
  simp only at h1 ⊢
  have h3 : ¬(a1 = b1 ∧ a2 = b2 ∧ a3 = b3) := by
    intro hcon
    apply h2
    simp [hcon.1, hcon.2.1, hcon.2.2]
  omega

/-- C8: the hourly CSV export is a pure (hence deterministic) function of
the history snapshot, and its row order is canonical: the dates appear in
strictly ascending chronological order and, within each date, the hour
buckets appear in strictly ascending order. -/
theorem csv_export_deterministic_and_sorted (hist : List StatisticsData) :
    handleDownloadCSV hist = handleDownloadCSV hist ∧
    List.Pairwise (fun a b => dateKeyLT a.1 b.1) (sortedAgg hist) ∧
    (∀ p ∈ sortedAgg hist, List.Pairwise (fun s t : SlotCounts => s.1 < t.1) p.2) := by
  obtain ⟨hnodup_out, hnodup_in⟩ := aggregate_invariant hist
  have hperm := List.perm_insertionSort aggEntryLE (aggregateHourlyData hist)
  have hsorted := List.sorted_insertionSort aggEntryLE (aggregateHourlyData hist)
  have hnodup_s : ((List.insertionSort aggEntryLE (aggregateHourlyData hist)).map
      Prod.fst).Nodup :=
    ((hperm.map Prod.fst).nodup_iff).mpr hnodup_out
  have hpair_ne : List.Pairwise (fun a b : DateKey × List SlotCounts => a.1 ≠ b.1)
      (List.insertionSort aggEntryLE (aggregateHourlyData hist)) :=
    (List.pairwise_map).mp hnodup_s
  have hpair_lt : List.Pairwise (fun a b : DateKey × List SlotCounts => dateKeyLT a.1 b.1)
      (List.insertionSort aggEntryLE (aggregateHourlyData hist)) := by
    have hand := List.Pairwise.and hsorted hpair_ne
    refine hand.imp ?_
    intro a b hab
    refine dateKey_lt_of_le_ne a.1 b.1 hab.1 ?_
    exact hab.2
  refine ⟨rfl, ?_, ?_⟩
  · unfold sortedAgg
    refine (List.pairwise_map).mpr ?_
    exact hpair_lt
  · intro p hp
    unfold sortedAgg at hp
    rcases List.mem_map.mp hp with ⟨r, hr, hpr⟩
    subst hpr
    have hsorted_in := List.sorted_insertionSort slotLE r.2
    have hperm_in := List.perm_insertionSort slotLE r.2
    have hr_in_agg : r ∈ aggregateHourlyData hist := hperm.mem_iff.mp hr
    have hnodup_r : (r.2.map Prod.fst).Nodup := hnodup_in r hr_in_agg
    have hnodup_sorted : ((List.insertionSort slotLE r.2).map Prod.fst).Nodup :=
      ((hperm_in.map Prod.fst).nodup_iff).mpr hnodup_r
    have hpair_ne_in : List.Pairwise (fun s t : SlotCounts => s.1 ≠ t.1)
        (List.insertionSort slotLE r.2) :=
      (List.pairwise_map).mp hnodup_sorted
    have hand := List.Pairwise.and hsorted_in hpair_ne_in
    refine hand.imp ?_
    intro s t hst
    have h1 : s.1 ≤ t.1 := hst.1
    have h2 : s.1 ≠ t.1 := hst.2
    omega

/-- No newline character occurs in the string. -/
def NoNL (s : String) : Prop := ∀ c ∈ s.data, c ≠ '\n'

lemma noNL_append (a b : String) (ha : NoNL a) (hb : NoNL b) : NoNL (a ++ b) := by
  intro c hc
  rw [String.data_append] at hc
  rcases List.mem_append.mp hc with h | h
  · exact ha c h
  · exact hb c h

lemma digitChar_ne_newline (m : Nat) (h : m < 10) : Nat.digitChar m ≠ '\n' := by
  interval_cases m <;> decide

lemma natDigitsAux_ne_newline (fuel : Nat) :
    ∀ n, ∀ c ∈ natDigitsAux fuel n, c ≠ '\n' := by
  induction fuel with
  | zero =>
    intro n c hc
    simp [natDigitsAux] at hc
  | succ fuel ih =>
    intro n c hc
    unfold natDigitsAux at hc
    by_cases hn : n < 10
    · rw [if_pos hn] at hc
      simp only [List.mem_singleton] at hc
      subst hc
      exact digitChar_ne_newline n hn
    · rw [if_neg hn] at hc
      rcases List.mem_append.mp hc with h | h
      · exact ih (n / 10) c h
      · simp only [List.mem_singleton] at h
        subst h
        exact digitChar_ne_newline (n % 10) (Nat.mod_lt _ (by omega))

lemma renderNat_noNL (n : Nat) : NoNL (renderNat n) := by
  intro c hc
  exact natDigitsAux_ne_newline (n + 1) n c hc

lemma renderInt_noNL (i : Int) : NoNL (renderInt i) := by
  unfold renderInt
  by_cases h : i < 0
  · rw [if_pos h]
    exact noNL_append _ _ (by intro c hc; simp at hc; subst hc; decide) (renderNat_noNL _)
  · rw [if_neg h]
    exact renderNat_noNL _

lemma renderNumber_noNL (q : Rat) : NoNL (renderNumber q) := by
  unfold renderNumber
  by_cases h : q.den = 1
  · rw [if_pos h]
    exact renderInt_noNL _
  · rw [if_neg h]
    exact noNL_append _ _
      (noNL_append _ _ (renderInt_noNL _) (by intro c hc; simp at hc; subst hc; decide))
      (renderNat_noNL _)

lemma pad2_noNL (n : Nat) : NoNL (pad2 n) := by
  unfold pad2
  by_cases h : n < 10
  · rw [if_pos h]
    exact noNL_append _ _ (by unfold NoNL; decide) (renderNat_noNL _)
  · rw [if_neg h]
    exact renderNat_noNL _

lemma pad4_noNL (n : Nat) : NoNL (pad4 n) := by
  unfold pad4
  by_cases h1 : n < 10
  · rw [if_pos h1]
    exact noNL_append _ _ (by unfold NoNL; decide) (renderNat_noNL _)
  · rw [if_neg h1]
    by_cases h2 : n < 100
    · rw [if_pos h2]
      exact noNL_append _ _ (by unfold NoNL; decide) (renderNat_noNL _)
    · rw [if_neg h2]
      by_cases h3 : n < 1000
      · rw [if_pos h3]
        exact noNL_append _ _ (by unfold NoNL; decide) (renderNat_noNL _)
      · rw [if_neg h3]
        exact renderNat_noNL _

lemma dateKeyLabel_noNL (dk : DateKey) : NoNL (dateKeyLabel dk) := by
  unfold dateKeyLabel
  repeat' apply noNL_append
  all_goals first
    | exact pad4_noNL _
    | exact pad2_noNL _
    | (unfold NoNL; decide)

lemma timeSlotLabel_noNL (h : Nat) : NoNL (timeSlotLabel h) := by
  unfold timeSlotLabel
  repeat' apply noNL_append
  all_goals first
    | exact pad2_noNL _
    | (unfold NoNL; decide)

lemma csvRow_noNL (dk : DateKey) (s : SlotCounts) : NoNL (csvRow dk s) := by
  unfold csvRow
  repeat' apply noNL_append
  all_goals first
    | exact dateKeyLabel_noNL dk
    | exact timeSlotLabel_noNL _
    | exact renderNumber_noNL _
    | exact pad4_noNL _
    | exact pad2_noNL _
    | (unfold NoNL; decide)

lemma joinWith_noNL (sep : String) (hsep : NoNL sep) :
    ∀ rows : List String, (∀ r ∈ rows, NoNL r) → NoNL (joinWith sep rows)
  | [] => by
    intro _ c hc
    simp [joinWith, String.data] at hc
  | [a] => by
    intro h
    simpa [joinWith] using h a (by simp)
  | a :: b :: rest => by
    intro h
    unfold joinWith
    refine noNL_append _ _ (noNL_append _ _ (h a (by simp)) hsep) ?_
    exact joinWith_noNL sep hsep (b :: rest)
      (fun r hr => h r (List.mem_cons_of_mem _ hr))

lemma csvRowsOf_noNL (hist : List StatisticsData) :
    ∀ r ∈ csvRowsOf hist, NoNL r := by
  intro r hr
  unfold csvRowsOf at hr
  rcases List.mem_cons.mp hr with h | h
  · subst h
    unfold NoNL
    decide
  · rcases List.mem_flatMap.mp h with ⟨p, _, hp2⟩
    rcases List.mem_map.mp hp2 with ⟨s, _, hs2⟩
    subst hs2
    exact csvRow_noNL p.1 s

/-- C10: whenever the export produces a CSV at all, the produced text is
the row list joined with the TWO-character sequence backslash-`n` (the
source writes the escaped string literal, not a newline), so the text
contains no newline character and is a single line. -/
theorem csv_output_has_no_newline (hist : List StatisticsData) (s : String)
    (h : handleDownloadCSV hist = some s) :
    s = joinWith csvJoinSeparator (csvRowsOf hist) ∧
    csvJoinSeparator.data = ['\x5c', 'n'] ∧
    NoNL s := by
  unfold handleDownloadCSV at h
  by_cases h1 : hist.isEmpty
  · rw [if_pos h1] at h
    exact absurd h (by simp)
  · rw [if_neg h1] at h
    by_cases h2 : (aggregateHourlyData hist).isEmpty
    · rw [if_pos h2] at h
      exact absurd h (by simp)
    · rw [if_neg h2] at h
      have hs : s = joinWith csvJoinSeparator (csvRowsOf hist) :=
        (Option.some.inj h).symm
      refine ⟨hs, by decide, ?_⟩
      rw [hs]
      exact joinWith_noNL csvJoinSeparator (by unfold NoNL; decide)
        (csvRowsOf hist) (csvRowsOf_noNL hist)

/-- A one-entry history snapshot. -/
def demoHist : List StatisticsData :=
  [⟨7, "entering", "a.mp4", some ⟨2024, 7, 12, 14, 30⟩⟩]

/-- The CSV text the export produces for `demoHist`. -/
def demoCsvText : String :=
  "Date,Time Slot,Entering Visitors,Exiting Visitors\x5cn2024-07-12,\x2214:00 - 14:59\x22,7,0"

/-- C10 witness: the concrete one-line CSV. -/
theorem csv_output_has_no_newline_witness :
    handleDownloadCSV demoHist = some demoCsvText ∧ NoNL demoCsvText :=
  ⟨by decide, (csv_output_has_no_newline demoHist demoCsvText (by decide)).2.2⟩

/-- A three-entry history spanning two dates and two hours. -/
def demoHist2 : List StatisticsData :=
  [⟨7, "entering", "a.mp4", some ⟨2024, 7, 12, 14, 30⟩⟩,
   ⟨3, "exiting", "b.mp4", some ⟨2023, 12, 31, 9, 5⟩⟩,
   ⟨2, "entering", "c.mp4", some ⟨2024, 7, 12, 9, 0⟩⟩]

/-- C8 witness: the concrete snapshot is exported deterministically with
strictly ascending dates. -/
theorem csv_export_deterministic_and_sorted_witness :
    handleDownloadCSV demoHist2 = handleDownloadCSV demoHist2 ∧
    List.Pairwise (fun a b => dateKeyLT a.1 b.1) (sortedAgg demoHist2) :=
  ⟨(csv_export_deterministic_and_sorted demoHist2).1,
    (csv_export_deterministic_and_sorted demoHist2).2.1⟩
